import Mathlib

/-!
Shallow embedding of the sync module of the demobit repository
(src/sync.rs, with the fingerprint helper from src/prelude.rs).

Modelling conventions:
* UUIDs are natural numbers, with 0 standing for the nil sentinel
  produced by Uuid::default().
* DateTime values are natural numbers; calls to Utc::now() are passed in
  as an explicit now parameter.
* sha1_signature in src/prelude.rs serializes a record to JSON and hashes
  it; it always returns Ok. It is modelled as an explicit total function
  parameter, one per record type (sigT for objects, sigA for typed action
  objects, sigU for universal action objects, sigC for commits).
* JSON serialization and deserialization are modelled as the identity on
  the embedded records: a serialized action object inside a commit is the
  universal envelope record itself.
* A Rust panic (assert! or expect) is modelled as an error result.
-/

deriving instance DecidableEq for Except

namespace Demobit

/-- ActionKind from src/sync.rs: Create carrying the initial object, or
Patch carrying an application-defined action. -/
inductive ActionKind (T A : Type) where
  | Create : T → ActionKind T A
  | Patch : A → ActionKind T A
deriving DecidableEq

/-- ActionObject from src/sync.rs: the metadata envelope around one
ActionKind. -/
structure ActionObject (T A : Type) where
  id : Nat
  storage_id : String
  object_id : Nat
  uid : String
  dtime : Nat
  commit_id : Option Nat
  parent_action_id : Option Nat
  action : ActionKind T A
  object_signature : String
  remote_signature : Option String
deriving DecidableEq

/-- UniversalActionObject from src/sync.rs: the same envelope with the
action field kept opaque (type V models the serde_json Value). -/
structure UniversalActionObject (V : Type) where
  id : Nat
  storage_id : String
  object_id : Nat
  uid : String
  dtime : Nat
  commit_id : Option Nat
  parent_action_id : Option Nat
  action : V
  object_signature : String
  remote_signature : Option String
deriving DecidableEq

/-- Commit from src/sync.rs. The serialized_actions field holds the
serialized action objects; serialization is modelled as the identity, so
the entries are universal envelopes. -/
structure Commit (V : Type) where
  id : Nat
  uid : String
  dtime : Nat
  comment : String
  ancestor_id : Nat
  serialized_actions : List (UniversalActionObject V)
  remote_signature : Option String
deriving DecidableEq

variable {T A V : Type}

/-- ActionObject::is_local. -/
def ActionObject.is_local (a : ActionObject T A) : Bool :=
  a.remote_signature.isNone

/-- ActionObject::is_remote. -/
def ActionObject.is_remote (a : ActionObject T A) : Bool :=
  a.remote_signature.isSome

/-- ActionObject::is_kind_patch. -/
def ActionObject.is_kind_patch (a : ActionObject T A) : Bool :=
  match a.action with
  | ActionKind.Patch _ => true
  | _ => false

/-- ActionObject::is_kind_create. -/
def ActionObject.is_kind_create (a : ActionObject T A) : Bool :=
  match a.action with
  | ActionKind.Create _ => true
  | _ => false

/-- ActionObject::has_valid_remote_signature: when a remote signature is
stored, compare it with the fingerprint of the clone whose
remote_signature field is cleared; otherwise Ok(false). -/
def ActionObject.has_valid_remote_signature (sigA : ActionObject T A → String)
    (a : ActionObject T A) : Bool :=
  match a.remote_signature with
  | some remote_signature =>
      sigA { a with remote_signature := none } == remote_signature
  | none => false

/-- ActionObject::reset_dtime: sets dtime to the current time. -/
def ActionObject.reset_dtime (now : Nat) (a : ActionObject T A) :
    ActionObject T A :=
  { a with dtime := now }

/-- UniversalActionObject::is_remote. -/
def UniversalActionObject.is_remote (u : UniversalActionObject V) : Bool :=
  u.remote_signature.isSome

/-- UniversalActionObject::is_local. -/
def UniversalActionObject.is_local (u : UniversalActionObject V) : Bool :=
  !u.is_remote

/-- UniversalActionObject::remote_sign: error when already signed, else
install the fingerprint of the current record (whose remote_signature is
none at that point). -/
def UniversalActionObject.remote_sign
    (sigU : UniversalActionObject V → String) (u : UniversalActionObject V) :
    Except String (UniversalActionObject V) :=
  if u.is_remote then
    Except.error "Already signed action object"
  else
    Except.ok { u with remote_signature := some (sigU u) }

/-- Commit::new: fresh commit with sentinel ancestor, no actions and no
remote signature; the fresh uuid and current time are passed in. -/
def Commit.new (uid comment : String) (id dtime : Nat) : Commit V :=
  { id := id
    uid := uid
    dtime := dtime
    comment := comment
    ancestor_id := 0
    serialized_actions := []
    remote_signature := none }

/-- Commit::add_action_object: push a serialized action object. -/
def Commit.add_action_object (c : Commit V) (u : UniversalActionObject V) :
    Commit V :=
  { c with serialized_actions := c.serialized_actions ++ [u] }

/-- Commit::set_ancestor_id. -/
def Commit.set_ancestor_id (c : Commit V) (ancestor_id : Nat) : Commit V :=
  { c with ancestor_id := ancestor_id }

/-- Commit::is_remote. -/
def Commit.is_remote (c : Commit V) : Bool :=
  c.remote_signature.isSome

/-- Commit::is_local. -/
def Commit.is_local (c : Commit V) : Bool :=
  !c.is_remote

/-- Commit::add_remote_signature: error when already signed, else install
the fingerprint of the current record (whose remote_signature is none at
that point). -/
def Commit.add_remote_signature (sigC : Commit V → String) (c : Commit V) :
    Except String (Commit V) :=
  if c.is_remote then
    Except.error "Commit already has remote signature!"
  else
    Except.ok { c with remote_signature := some (sigC c) }

/-- Commit::has_valid_remote_signature, translated faithfully from
src/sync.rs lines 261-271: sig1 is taken out of a clone, but sig2 is the
fingerprint of self, on which the remote_signature field is still
present. -/
def Commit.has_valid_remote_signature (sigC : Commit V → String)
    (c : Commit V) : Bool :=
  match c.remote_signature with
  | some sig1 => sig1 == sigC c
  | none => false

/-- StorageObject from src/sync.rs: the per-object state with the two
action chains and the two materialized snapshots. -/
structure StorageObject (T A : Type) where
  id : Nat
  storage_id : String
  remote_actions : List (ActionObject T A)
  local_actions : List (ActionObject T A)
  remote_object : Option T
  local_object : T
deriving DecidableEq

/-- Deref for StorageObject: immutable access to the underlying data goes
to the local snapshot. -/
def StorageObject.deref (s : StorageObject T A) : T :=
  s.local_object

/-- StorageObject::new_from_aob: build a storage object from a Create
action object; a local create seeds the local side only, a remote create
seeds both sides; any other kind is an error. -/
def StorageObject.new_from_aob (aob : ActionObject T A) :
    Except String (StorageObject T A) :=
  match aob.action with
  | ActionKind.Create data =>
      Except.ok <|
        if aob.is_local then
          { id := aob.object_id
            storage_id := aob.storage_id
            remote_actions := []
            local_actions := [aob]
            remote_object := none
            local_object := data }
        else
          { id := aob.object_id
            storage_id := aob.storage_id
            remote_actions := [aob]
            local_actions := []
            remote_object := some data
            local_object := data }
  | _ => Except.error "Action Ojbect must be create kind"

/-- StorageObject::is_local_object: true when there is no remote
object. -/
def StorageObject.is_local_object (s : StorageObject T A) : Bool :=
  s.remote_object.isNone

/-- StorageObject::is_remote_object. -/
def StorageObject.is_remote_object (s : StorageObject T A) : Bool :=
  !s.is_local_object

/-- StorageObject::clear_local_changes: the source asserts that the
object is remote (a panic, modelled as an error), clears the local
actions and resets the local snapshot to the remote one. -/
def StorageObject.clear_local_changes (s : StorageObject T A) :
    Except String (StorageObject T A) :=
  match s.remote_object with
  | some remote_object =>
      Except.ok { s with local_actions := [], local_object := remote_object }
  | none => Except.error "Only remote StorageObject can be cleared locally"

/-- Loop body of StorageObject::rebuild_local_objects: walk the local
actions in order threading the rebuilt snapshot; every Patch entry is
re-applied with its stored dtime and uid, gets its object_signature
recomputed from the patched data and its dtime reset to now; entries of
any other kind are left untouched and do not advance the snapshot. -/
def rebuild_actions (app : A → T → Nat → String → Except String T)
    (sigT : T → String) (now : Nat) :
    T → List (ActionObject T A) →
    Except String (T × List (ActionObject T A))
  | t, [] => Except.ok (t, [])
  | t, aob :: rest =>
    match aob.action with
    | ActionKind.Patch action =>
        match app action t aob.dtime aob.uid with
        | Except.error e => Except.error e
        | Except.ok patched_data =>
            match rebuild_actions app sigT now patched_data rest with
            | Except.error e => Except.error e
            | Except.ok (tfin, rest2) =>
                Except.ok (tfin,
                  ({ aob with
                      object_signature := sigT patched_data }).reset_dtime now
                    :: rest2)
    | _ =>
        match rebuild_actions app sigT now t rest with
        | Except.error e => Except.error e
        | Except.ok (tfin, rest2) => Except.ok (tfin, aob :: rest2)

/-- StorageObject::rebuild_local_objects: error when there is no remote
object; otherwise restart the local snapshot from the remote one and
replay the local actions via rebuild_actions. -/
def StorageObject.rebuild_local_objects
    (app : A → T → Nat → String → Except String T) (sigT : T → String)
    (now : Nat) (s : StorageObject T A) :
    Except String (StorageObject T A) :=
  match s.remote_object with
  | none => Except.error "Only remote object can be rebuild"
  | some remote_object =>
      match rebuild_actions app sigT now remote_object s.local_actions with
      | Except.error e => Except.error e
      | Except.ok (tfin, acts) =>
          Except.ok { s with local_object := tfin, local_actions := acts }

/-- StorageObject::add_local_action_object: reject remote action objects;
require a Patch kind; require the parent id to equal the id of the last
local action (none when the chain is empty); apply the patch to the local
snapshot; require the stored object_signature to equal the fingerprint of
the patched object; then append the action and replace the snapshot. -/
def StorageObject.add_local_action_object
    (app : A → T → Nat → String → Except String T) (sigT : T → String)
    (s : StorageObject T A) (action_object : ActionObject T A) :
    Except String (StorageObject T A) :=
  if action_object.is_remote then
    Except.error "Only local action object allowed to be added as local"
  else
    match action_object.action with
    | ActionKind.Patch action =>
        if action_object.parent_action_id ≠
            (s.local_actions.getLast?).map (fun i => i.id) then
          Except.error "Local patch error. Parent id is wrong"
        else
          match app action s.local_object action_object.dtime
              action_object.uid with
          | Except.error e => Except.error e
          | Except.ok patched_object =>
              if action_object.object_signature ≠ sigT patched_object then
                Except.error "Local patch signature error!"
              else
                Except.ok { s with
                  local_object := patched_object,
                  local_actions := s.local_actions ++ [action_object] }
    | _ => Except.error "Patch must have Patch action kind!"

/-- StorageObject::add_remote_action_object: reject local action objects;
require the parent id to equal the id of the last remote action; require
a remote object to be present; require a Patch kind; apply the patch to
the remote snapshot; require the stored object_signature to equal the
fingerprint of the patched object; require the remote signature to be
present (the source carries a todo noting that its value is never
verified); then replace the remote snapshot, append the action and
rebuild the local side. -/
def StorageObject.add_remote_action_object
    (app : A → T → Nat → String → Except String T) (sigT : T → String)
    (now : Nat) (s : StorageObject T A) (action_object : ActionObject T A) :
    Except String (StorageObject T A) :=
  if !action_object.is_remote then
    Except.error "Only remote action object can be added here"
  else if (s.remote_actions.getLast?).map (fun i => i.id) ≠
      action_object.parent_action_id then
    Except.error "Action Object parent id mismatch"
  else
    match s.remote_object with
    | none =>
        Except.error "We cannot add remote action object to local storage object"
    | some remote_object =>
        match action_object.action with
        | ActionKind.Patch action =>
            match app action remote_object action_object.dtime
                action_object.uid with
            | Except.error e => Except.error e
            | Except.ok patched_object =>
                if action_object.object_signature ≠ sigT patched_object then
                  Except.error "Remote Patch signature error!"
                else if action_object.remote_signature.isNone then
                  Except.error "Patch remote signature missing!"
                else
                  StorageObject.rebuild_local_objects app sigT now
                    { s with
                      remote_object := some patched_object,
                      remote_actions := s.remote_actions ++ [action_object] }
        | _ => Except.error "Patch must have Patch action kind!"

/-- StorageObject::add_action_object: route by the locality of the action
object. -/
def StorageObject.add_action_object
    (app : A → T → Nat → String → Except String T) (sigT : T → String)
    (now : Nat) (s : StorageObject T A) (action_object : ActionObject T A) :
    Except String (StorageObject T A) :=
  if action_object.is_local then
    s.add_local_action_object app sigT action_object
  else
    s.add_remote_action_object app sigT now action_object

/-- StorageInner from src/sync.rs: the storage id and the member index
(the members vector is carried but the filter paths below read objects
from persistence, modelled by an explicit fsRead function). -/
structure StorageInner (T A : Type) where
  id : String
  member_ids : List Nat
  members : List (StorageObject T A)

/-- Storage::get_object_by_id: error when the id is not in the member
index, otherwise read the object from persistence (binary_read on the
object path, modelled by fsRead). -/
def Storage.get_object_by_id
    (fsRead : Nat → Except String (StorageObject T A))
    (inner : StorageInner T A) (object_id : Nat) :
    Except String (StorageObject T A) :=
  if (inner.member_ids.find? (fun i => i == object_id)).isNone then
    Except.error "Storage does not have a member with this id"
  else
    fsRead object_id

/-- Filter loop shared by Storage::get_by_filter and
Storage::get_first_by_filter (the source repeats the identical loop in
both): read each member object and keep those whose dereferenced value
(the local snapshot) satisfies the filter. -/
def filter_loop (fsRead : Nat → Except String (StorageObject T A))
    (inner : StorageInner T A) (filter : T → Bool) :
    List Nat → List (StorageObject T A) →
    Except String (List (StorageObject T A))
  | [], res => Except.ok res
  | id :: ids, res =>
    match Storage.get_object_by_id fsRead inner id with
    | Except.error e => Except.error e
    | Except.ok so =>
        if filter so.deref then filter_loop fsRead inner filter ids (res ++ [so])
        else filter_loop fsRead inner filter ids res

/-- Storage::get_by_filter: run the filter loop over the member ids. -/
def Storage.get_by_filter
    (fsRead : Nat → Except String (StorageObject T A))
    (inner : StorageInner T A) (filter : T → Bool) :
    Except String (List (StorageObject T A)) :=
  filter_loop fsRead inner filter inner.member_ids []

/-- Storage::get_first_by_filter: the same loop, then the first collected
element, or an error when none matched. -/
def Storage.get_first_by_filter
    (fsRead : Nat → Except String (StorageObject T A))
    (inner : StorageInner T A) (filter : T → Bool) :
    Except String (StorageObject T A) :=
  match filter_loop fsRead inner filter inner.member_ids [] with
  | Except.error e => Except.error e
  | Except.ok res =>
      match res.head? with
      | some so => Except.ok so
      | none => Except.error "Object not found"

/-- CommitIndex from src/sync.rs: the cached ids of the last local and
last remote commit. -/
structure CommitIndex where
  latest_local_commit_id : Option Nat
  latest_remote_commit_id : Option Nat
deriving DecidableEq

/-- RepoState: the on-disk repository state a Context reaches — the
commit index file plus the two append-only commit logs. Storage files
are outside this record. -/
structure RepoState (V : Type) where
  commit_index : CommitIndex
  local_log : List (Commit V)
  remote_log : List (Commit V)
deriving DecidableEq

/-- CommitIndex::latest_local_commit_id: load the index and return its
latest_local_commit_id field. -/
def RepoState.latest_local_commit_id (st : RepoState V) : Option Nat :=
  st.commit_index.latest_local_commit_id

/-- CommitIndex::latest_remote_commit_id, translated faithfully from
src/sync.rs lines 989-992: the source loads the index and returns its
latest_local_commit_id field. -/
def RepoState.latest_remote_commit_id (st : RepoState V) : Option Nat :=
  st.commit_index.latest_local_commit_id

/-- CommitIndex::set_latest_local_id. -/
def RepoState.set_latest_local_id (st : RepoState V) (v : Option Nat) :
    RepoState V :=
  { st with commit_index :=
      { st.commit_index with latest_local_commit_id := v } }

/-- CommitIndex::set_latest_remote_id. -/
def RepoState.set_latest_remote_id (st : RepoState V) (v : Option Nat) :
    RepoState V :=
  { st with commit_index :=
      { st.commit_index with latest_remote_commit_id := v } }

/-- CommitLog::add_local_commit: rewrite the ancestor id from the latest
local commit id when one is recorded, advance the index, append to the
local log. -/
def CommitLog.add_local_commit (st : RepoState V) (local_commit : Commit V) :
    RepoState V :=
  let local_commit :=
    match st.latest_local_commit_id with
    | some last_local_commit_id =>
        local_commit.set_ancestor_id last_local_commit_id
    | none => local_commit
  let st := st.set_latest_local_id (some local_commit.id)
  { st with local_log := st.local_log ++ [local_commit] }

/-- CommitLog::add_remote_commit: when a latest remote commit id is
recorded (read directly off the loaded index record), require the
ancestor id of the incoming commit to equal it; then advance the index
and append to the remote log. -/
def CommitLog.add_remote_commit (st : RepoState V) (remote_commit : Commit V) :
    Except String (RepoState V) :=
  match st.commit_index.latest_remote_commit_id with
  | some last_remote_commit_id =>
      if remote_commit.ancestor_id ≠ last_remote_commit_id then
        Except.error "Remote commit ancestor ID error! Please pull"
      else
        let st := st.set_latest_remote_id (some remote_commit.id)
        Except.ok { st with remote_log := st.remote_log ++ [remote_commit] }
  | none =>
      let st := st.set_latest_remote_id (some remote_commit.id)
      Except.ok { st with remote_log := st.remote_log ++ [remote_commit] }

/-- CallbackMode from src/sync.rs. -/
inductive CallbackMode where
  | check : CallbackMode
  | apply : CallbackMode

/-- Storage hook shape from src/sync.rs: a callback receiving one
serialized action object and a mode, returning none when the action does
not target this storage. -/
def Hook (V : Type) : Type :=
  UniversalActionObject V → CallbackMode → Option (Except String Unit)

/-- Drop for CommitContextGuard: when the pending commit carries a remote
signature it is appended to the remote log (an append failure is an
expect panic, modelled as the error branch), otherwise it is appended to
the local log. The drop then dispatches every serialized action of the
pending commit to the hooks in Apply mode; those callbacks update
storage files, which are outside RepoState, so the dispatch does not
touch the commit logs modelled here. -/
def drop_guard (st : RepoState V) (temp_commit : Commit V) :
    Except String (RepoState V) :=
  match temp_commit.remote_signature with
  | some _ => CommitLog.add_remote_commit st temp_commit
  | none => Except.ok (CommitLog.add_local_commit st temp_commit)

/-- Check dispatch of one serialized action object through the hooks, as
in step 3 of Repository::merge_pushed_commit: the first hook returning
some consumes the action; an error aborts, anything else continues. -/
def check_action (hooks : List (Hook V)) (u : UniversalActionObject V) :
    Except String Unit :=
  match hooks.findSome? (fun hook => hook u CallbackMode.check) with
  | some (Except.error e) => Except.error e
  | _ => Except.ok ()

/-- Body of Repository::merge_pushed_commit up to the early returns:
reject a commit that already carries a remote signature; check the
ancestor id against CommitIndex::latest_remote_commit_id; sign every
action object as a universal envelope; run every signed action through
the hooks in Check mode; install the remote signature of the commit.
Deserialization of the pushed JSON is modelled as the identity. -/
def merge_body (sigU : UniversalActionObject V → String)
    (sigC : Commit V → String) (hooks : List (Hook V)) (st : RepoState V)
    (commit : Commit V) : Except String (Commit V) := do
  if commit.remote_signature.isSome then
    Except.error
      "Pushed commit has remote signature. Only local commits can be pushed!"
  else do
    match st.latest_remote_commit_id with
    | some latest_remote_commit_id =>
        if commit.ancestor_id ≠ latest_remote_commit_id then
          Except.error
            "Commit ancestor id erro. Local repo not up-to-date. Pull required."
        else
          pure ()
    | none => pure ()
    let signed ← commit.serialized_actions.mapM
      (fun u => u.remote_sign sigU)
    let commit := { commit with serialized_actions := signed }
    let _ ← commit.serialized_actions.mapM (fun u => check_action hooks u)
    commit.add_remote_signature sigC

/-- Repository::merge_pushed_commit: the guard created on entry holds a
fresh empty pending commit temp0; on any early return the guard drop
still runs with temp0, on success it runs with the signed commit. The
outer Except is a drop panic; the inner Except is the returned result of
the merge. -/
def Repository.merge_pushed_commit (sigU : UniversalActionObject V → String)
    (sigC : Commit V → String) (hooks : List (Hook V)) (temp0 : Commit V)
    (st : RepoState V) (commit : Commit V) :
    Except String (RepoState V × Except String (Commit V)) :=
  match merge_body sigU sigC hooks st commit with
  | Except.error e =>
      (drop_guard st temp0).map (fun st2 => (st2, Except.error e))
  | Except.ok signed =>
      (drop_guard st signed).map (fun st2 => (st2, Except.ok signed))

/-- Repository::proceed_push: load the local commits, send each one to
the server in order (a per-commit transport or merge error is an unwrap
panic that halts the loop, modelled as the error branch), collect and
print the signed replies. The repository state is returned unchanged:
the source never removes local commits nor appends the replies to the
remote log. -/
def Repository.proceed_push (rpc : Commit V → Except String (Commit V))
    (st : RepoState V) : RepoState V × Except String Unit :=
  match st.local_log.mapM rpc with
  | Except.ok _ => (st, Except.ok ())
  | Except.error e => (st, Except.error e)

/-- Left fold of the Patch actions of a chain over a starting object,
in order, each applied with its stored dtime and uid; entries of any
other kind do not advance the object. -/
def fold_patches (app : A → T → Nat → String → Except String T) :
    T → List (ActionObject T A) → Except String T
  | t, [] => Except.ok t
  | t, a :: rest =>
    match a.action with
    | ActionKind.Patch act =>
        match app act t a.dtime a.uid with
        | Except.error e => Except.error e
        | Except.ok p => fold_patches app p rest
    | _ => fold_patches app t rest

/-!
Concrete instantiation used for evaluations: the object type is Nat, an
action is a Nat and applying it adds it to the object, and the
fingerprint functions are simple stand-ins for SHA-1 over the JSON
serialization.
-/

/-- Demo action application: the object is a number, an action adds to
it. -/
def appDemo : Nat → Nat → Nat → String → Except String Nat :=
  fun a t _ _ => Except.ok (t + a)

/-- Demo object fingerprint: the decimal representation. -/
def sigTDemo : Nat → String := fun t => toString t

/-- Demo fingerprint for typed action objects. -/
def sigADemo : ActionObject Nat Nat → String := fun _ => "valid"

/-- Demo fingerprint for universal action objects. -/
def sigUDemo : UniversalActionObject Unit → String := fun _ => "us"

/-- Demo commit fingerprint: like any faithful serialization-based hash,
it distinguishes a record carrying an installed signature from the
cleared record. -/
def sigCDemo : Commit Unit → String :=
  fun c =>
    match c.remote_signature with
    | some s => "S" ++ s
    | none => "N"

/-- Server state whose commit index records different latest local and
latest remote commit ids. -/
def stC1 : RepoState Unit :=
  { commit_index :=
      { latest_local_commit_id := some 1, latest_remote_commit_id := some 2 }
    local_log := []
    remote_log := [] }

/-- Pushed local commit whose ancestor is the recorded latest remote
commit id of stC1. -/
def commitAncestorRemote : Commit Unit :=
  { id := 10, uid := "a", dtime := 0, comment := "x", ancestor_id := 2,
    serialized_actions := [], remote_signature := none }

/-- Pushed local commit whose ancestor is the recorded latest local
commit id of stC1. -/
def commitAncestorLocal : Commit Unit :=
  { commitAncestorRemote with id := 11, ancestor_id := 1 }

/-- C1: the claim states that merge_pushed_commit passes the ancestor
check exactly when the ancestor id of the pushed commit equals the
recorded latest remote commit id. The code reads the latest id through
CommitIndex::latest_remote_commit_id, which returns the
latest_local_commit_id field, so on an index recording latest local 1 and
latest remote 2 the commit with ancestor 2 is rejected as stale while the
commit with ancestor 1 passes the check and is merged — the opposite of
the claim. -/
theorem merge_ancestor_check_reads_local_index :
    stC1.commit_index.latest_remote_commit_id = some 2 ∧
    merge_body sigUDemo sigCDemo [] stC1 commitAncestorRemote =
      Except.error
        "Commit ancestor id erro. Local repo not up-to-date. Pull required." ∧
    merge_body sigUDemo sigCDemo [] stC1 commitAncestorLocal =
      Except.ok { commitAncestorLocal with remote_signature := some "N" } :=
  ⟨rfl, rfl, rfl⟩

/-- Local commit with no actions and no signature, as built by
Commit::new. -/
def commitUnsigned : Commit Unit :=
  { id := 1, uid := "u", dtime := 2, comment := "m", ancestor_id := 0,
    serialized_actions := [], remote_signature := none }

/-- C2: the claim states that a commit whose stored signature equals the
fingerprint of the commit with the signature cleared validates as true.
The code fingerprints the commit with the signature still installed
(src/sync.rs lines 261-271), so the very commit produced by
add_remote_signature — whose stored signature does equal the fingerprint
of the cleared record — fails its own validation. -/
theorem commit_signature_validation_hashes_signed_record :
    Commit.add_remote_signature sigCDemo commitUnsigned =
      Except.ok { commitUnsigned with remote_signature := some "N" } ∧
    ({ commitUnsigned with remote_signature := some "N" }).remote_signature =
      some (sigCDemo { commitUnsigned with remote_signature := none }) ∧
    Commit.has_valid_remote_signature sigCDemo
      { commitUnsigned with remote_signature := some "N" } = false :=
  ⟨rfl, rfl, by decide⟩

/-- Storage object holding a remote snapshot with no pending local
actions. -/
def soRemote : StorageObject Nat Nat :=
  { id := 1, storage_id := "st", remote_actions := [], local_actions := [],
    remote_object := some 10, local_object := 10 }

/-- Remote action object whose stored remote signature is garbage: it
differs from the fingerprint of the cleared record, so
has_valid_remote_signature rejects it. -/
def aobBogusSig : ActionObject Nat Nat :=
  { id := 4, storage_id := "st", object_id := 1, uid := "u", dtime := 6,
    commit_id := some 9, parent_action_id := none,
    action := ActionKind.Patch 5, object_signature := "15",
    remote_signature := some "bogus" }

/-- C3: the claim states that an action object with an invalid remote
signature is rejected with a signature error. The code only checks that a
remote signature is present (the todo at src/sync.rs lines 532-535 notes
the missing verification), so an action object whose remote signature is
invalid is accepted and folded into the remote snapshot. -/
theorem add_remote_action_object_skips_remote_signature_validation :
    ActionObject.has_valid_remote_signature sigADemo aobBogusSig = false ∧
    StorageObject.add_remote_action_object appDemo sigTDemo 99 soRemote
        aobBogusSig =
      Except.ok
        { id := 1, storage_id := "st", remote_actions := [aobBogusSig],
          local_actions := [], remote_object := some 15, local_object := 15 } :=
  ⟨by decide, rfl⟩

/-- Client commit waiting in the local log before a push. -/
def commitPush : Commit Unit :=
  { id := 21, uid := "c", dtime := 4, comment := "z", ancestor_id := 0,
    serialized_actions := [], remote_signature := none }

/-- Client state with one unpublished local commit. -/
def stC7 : RepoState Unit :=
  { commit_index :=
      { latest_local_commit_id := some 21, latest_remote_commit_id := none }
    local_log := [commitPush]
    remote_log := [] }

/-- Server reply that signs whatever commit it receives. -/
def rpcDemo : Commit Unit → Except String (Commit Unit) :=
  fun c => Except.ok { c with remote_signature := some "srv" }

/-- C7: the claim states that after a successful push every sent local
commit has been removed from the local log and its signed version
appended to the remote log. The code only collects and prints the signed
replies: after a push that the server fully accepts, the client state is
unchanged — the local log still holds the pushed commit and the remote
log is still empty. -/
theorem proceed_push_leaves_client_logs_unchanged :
    Repository.proceed_push rpcDemo stC7 = (stC7, Except.ok ()) ∧
    stC7.local_log = [commitPush] ∧
    stC7.remote_log = [] :=
  ⟨rfl, rfl, rfl⟩

/-- Server state whose commit index records commit 1 as both latest local
and latest remote commit. -/
def stC8 : RepoState Unit :=
  { commit_index :=
      { latest_local_commit_id := some 1, latest_remote_commit_id := some 1 }
    local_log := []
    remote_log := [] }

/-- Pushed local commit with a stale ancestor id. -/
def commitStale : Commit Unit :=
  { id := 7, uid := "b", dtime := 3, comment := "y", ancestor_id := 99,
    serialized_actions := [], remote_signature := none }

/-- Empty pending commit created by the guard on entry to
merge_pushed_commit. -/
def tempC8 : Commit Unit := Commit.new "server" "" 100 50

/-- Server state after the stale push is rejected: the empty pending
commit has been appended to the local log and the latest local commit id
has advanced to it. -/
def stC8after : RepoState Unit :=
  { commit_index :=
      { latest_local_commit_id := some 100, latest_remote_commit_id := some 1 }
    local_log := [{ tempC8 with ancestor_id := 1 }]
    remote_log := [] }

/-- C8: the claim states that a stale push leaves the server logs and
commit index exactly as they were. The code rejects the commit with the
stale-push error, but the guard created on entry still drops: the empty
pending commit is appended to the local log and the latest local commit
id is advanced, so the state after the call differs from the state
before. -/
theorem merge_stale_push_mutates_server_state :
    Repository.merge_pushed_commit sigUDemo sigCDemo [] tempC8 stC8
        commitStale =
      Except.ok
        (stC8after,
         Except.error
           "Commit ancestor id erro. Local repo not up-to-date. Pull required.") ∧
    stC8after ≠ stC8 ∧
    stC8after.local_log.length = stC8.local_log.length + 1 :=
  ⟨rfl, by decide, rfl⟩

/-- C6: new_from_create (new_from_aob) rejects any non-Create action
object; a local Create seeds the local side only, with no remote
snapshot; a remote Create is mirrored into the remote side with both
snapshots equal to the payload. -/
theorem new_from_aob_spec (aob : ActionObject T A) :
    (∀ act : A, aob.action = ActionKind.Patch act →
        StorageObject.new_from_aob aob =
          Except.error "Action Ojbect must be create kind") ∧
    (∀ data : T, aob.action = ActionKind.Create data → aob.is_local = true →
        StorageObject.new_from_aob aob =
          Except.ok
            { id := aob.object_id, storage_id := aob.storage_id,
              remote_actions := [], local_actions := [aob],
              remote_object := none, local_object := data }) ∧
    (∀ data : T, aob.action = ActionKind.Create data → aob.is_local = false →
        StorageObject.new_from_aob aob =
          Except.ok
            { id := aob.object_id, storage_id := aob.storage_id,
              remote_actions := [aob], local_actions := [],
              remote_object := some data, local_object := data }) := by
  refine ⟨?_, ?_, ?_⟩
  · intro act ha
    simp [StorageObject.new_from_aob, ha]
  · intro data ha hl
    simp [StorageObject.new_from_aob, ha, hl]
  · intro data ha hl
    simp [StorageObject.new_from_aob, ha, hl]

/-- Local Create action object. -/
def aobCreateLocal : ActionObject Nat Nat :=
  { id := 11, storage_id := "st", object_id := 30, uid := "u", dtime := 1,
    commit_id := some 2, parent_action_id := none,
    action := ActionKind.Create 7, object_signature := "7",
    remote_signature := none }

/-- Remote (signed) Create action object. -/
def aobCreateRemote : ActionObject Nat Nat :=
  { aobCreateLocal with id := 12, remote_signature := some "rs" }

/-- Witness for new_from_aob_spec: both Create branches evaluated on
concrete inputs. -/
theorem new_from_aob_spec_witness :
    (aobCreateLocal.action = ActionKind.Create 7 ∧
      aobCreateLocal.is_local = true ∧
      StorageObject.new_from_aob aobCreateLocal =
        Except.ok
          { id := aobCreateLocal.object_id,
            storage_id := aobCreateLocal.storage_id, remote_actions := [],
            local_actions := [aobCreateLocal], remote_object := none,
            local_object := 7 }) ∧
    (aobCreateRemote.action = ActionKind.Create 7 ∧
      aobCreateRemote.is_local = false ∧
      StorageObject.new_from_aob aobCreateRemote =
        Except.ok
          { id := aobCreateRemote.object_id,
            storage_id := aobCreateRemote.storage_id,
            remote_actions := [aobCreateRemote], local_actions := [],
            remote_object := some 7, local_object := 7 }) :=
  ⟨⟨rfl, rfl, (new_from_aob_spec aobCreateLocal).2.1 7 rfl rfl⟩,
   ⟨rfl, rfl, (new_from_aob_spec aobCreateRemote).2.2 7 rfl rfl⟩⟩

/-- C9: clear_local_changes succeeds exactly on objects holding a remote
snapshot, emptying the local actions and resetting the local snapshot to
the remote one; on a purely-local object the attempt is rejected (an
assert panic in the source, surfacing to the caller) instead of
succeeding. -/
theorem clear_local_changes_spec (s : StorageObject T A) :
    (∀ r : T, s.remote_object = some r →
        s.clear_local_changes =
          Except.ok { s with local_actions := [], local_object := r }) ∧
    (s.remote_object = none →
        s.clear_local_changes =
          Except.error "Only remote StorageObject can be cleared locally") := by
  constructor
  · intro r hr
    simp [StorageObject.clear_local_changes, hr]
  · intro hr
    simp [StorageObject.clear_local_changes, hr]

/-- Purely-local storage object: no remote snapshot. -/
def soLocalOnly : StorageObject Nat Nat :=
  { id := 2, storage_id := "st", remote_actions := [],
    local_actions := [aobCreateLocal], remote_object := none,
    local_object := 7 }

/-- Witness for clear_local_changes_spec: both branches evaluated on
concrete objects. -/
theorem clear_local_changes_spec_witness :
    (soRemote.remote_object = some 10 ∧
      soRemote.clear_local_changes =
        Except.ok { soRemote with local_actions := [], local_object := 10 }) ∧
    (soLocalOnly.remote_object = none ∧
      soLocalOnly.clear_local_changes =
        Except.error "Only remote StorageObject can be cleared locally") :=
  ⟨⟨rfl, (clear_local_changes_spec soRemote).1 10 rfl⟩,
   ⟨rfl, (clear_local_changes_spec soLocalOnly).2 rfl⟩⟩

/-- Invariant of the shared filter loop: when every listed member reads
back successfully, the loop returns the accumulator followed by exactly
those objects whose local snapshot satisfies the filter. -/
theorem filter_loop_spec
    (fsRead : Nat → Except String (StorageObject T A))
    (inner : StorageInner T A) (filter : T → Bool)
    (objs : Nat → StorageObject T A) :
    ∀ (ids : List Nat) (acc : List (StorageObject T A)),
      (∀ id ∈ ids, id ∈ inner.member_ids) →
      (∀ id ∈ ids, fsRead id = Except.ok (objs id)) →
      filter_loop fsRead inner filter ids acc =
        Except.ok
          (acc ++ (ids.map objs).filter (fun so => filter so.local_object)) := by
  intro ids
  induction ids with
  | nil =>
    intro acc _ _
    simp [filter_loop]
  | cons id ids ih =>
    intro acc hmem hread
    have hm : id ∈ inner.member_ids := hmem id (List.mem_cons_self id ids)
    have hr : fsRead id = Except.ok (objs id) :=
      hread id (List.mem_cons_self id ids)
    have hne : inner.member_ids.find? (fun i => i == id) ≠ none := by
      intro hnone
      rw [List.find?_eq_none] at hnone
      exact hnone id hm (by simp)
    cases hfo : inner.member_ids.find? (fun i => i == id) with
    | none => exact absurd hfo hne
    | some x =>
      have hgo : Storage.get_object_by_id fsRead inner id =
          Except.ok (objs id) := by
        simp [Storage.get_object_by_id, hfo, hr]
      have hmem2 : ∀ i ∈ ids, i ∈ inner.member_ids :=
        fun i hi => hmem i (List.mem_cons_of_mem _ hi)
      have hread2 : ∀ i ∈ ids, fsRead i = Except.ok (objs i) :=
        fun i hi => hread i (List.mem_cons_of_mem _ hi)
      by_cases hf : filter (objs id).local_object
      · simp [filter_loop, hgo, StorageObject.deref, hf,
          ih (acc ++ [objs id]) hmem2 hread2, List.filter_cons]
      · simp [filter_loop, hgo, StorageObject.deref, hf,
          ih acc hmem2 hread2, List.filter_cons]

/-- C10: get_by_filter and get_first_by_filter evaluate the predicate on
each member object through Deref, that is on its local snapshot: when
every member reads back, the selected objects are exactly those whose
local_object satisfies the predicate, and the first match is the head of
that list — remote_object never enters the selection. -/
theorem get_by_filter_uses_local_snapshot
    (fsRead : Nat → Except String (StorageObject T A))
    (inner : StorageInner T A) (filter : T → Bool)
    (objs : Nat → StorageObject T A)
    (hread : ∀ id ∈ inner.member_ids, fsRead id = Except.ok (objs id)) :
    Storage.get_by_filter fsRead inner filter =
      Except.ok
        ((inner.member_ids.map objs).filter
          (fun so => filter so.local_object)) ∧
    Storage.get_first_by_filter fsRead inner filter =
      (match ((inner.member_ids.map objs).filter
            (fun so => filter so.local_object)).head? with
        | some so => Except.ok so
        | none => Except.error "Object not found") := by
  have h := filter_loop_spec fsRead inner filter objs inner.member_ids []
    (fun _ hi => hi) hread
  constructor
  · simpa [Storage.get_by_filter] using h
  · simp [Storage.get_first_by_filter, h]

/-- Member object whose local snapshot passes the demo filter while its
remote snapshot would fail it. -/
def soMemberOne : StorageObject Nat Nat :=
  { id := 1, storage_id := "st", remote_actions := [], local_actions := [],
    remote_object := some 0, local_object := 5 }

/-- Member object whose local snapshot fails the demo filter while its
remote snapshot would pass it. -/
def soMemberTwo : StorageObject Nat Nat :=
  { id := 2, storage_id := "st", remote_actions := [], local_actions := [],
    remote_object := some 9, local_object := 3 }

/-- Storage index with the two demo members. -/
def innerDemo : StorageInner Nat Nat :=
  { id := "st", member_ids := [1, 2], members := [] }

/-- Demo persistence: member 1 and member 2 read back as the two demo
objects. -/
def objsDemo : Nat → StorageObject Nat Nat :=
  fun id => if id == 1 then soMemberOne else soMemberTwo

/-- Demo persistence as a fallible read. -/
def fsDemo : Nat → Except String (StorageObject Nat Nat) :=
  fun id => Except.ok (objsDemo id)

/-- Witness for get_by_filter_uses_local_snapshot: with the predicate
four-or-more, member 1 (local 5, remote 0) is selected and member 2
(local 3, remote 9) is skipped — the opposite of what filtering on the
remote snapshots would produce. -/
theorem get_by_filter_uses_local_snapshot_witness :
    (∀ id ∈ innerDemo.member_ids, fsDemo id = Except.ok (objsDemo id)) ∧
    (Storage.get_by_filter fsDemo innerDemo (fun t => decide (4 ≤ t)) =
      Except.ok
        ((innerDemo.member_ids.map objsDemo).filter
          (fun so => decide (4 ≤ so.local_object))) ∧
    Storage.get_first_by_filter fsDemo innerDemo (fun t => decide (4 ≤ t)) =
      (match ((innerDemo.member_ids.map objsDemo).filter
            (fun so => decide (4 ≤ so.local_object))).head? with
        | some so => Except.ok so
        | none => Except.error "Object not found")) :=
  ⟨fun _ _ => rfl,
   get_by_filter_uses_local_snapshot fsDemo innerDemo
     (fun t => decide (4 ≤ t)) objsDemo (fun _ _ => rfl)⟩

/-- Locality is the negation of remoteness on action objects. -/
theorem is_local_eq_not_is_remote (a : ActionObject T A) :
    a.is_local = !a.is_remote := by
  cases h : a.remote_signature <;>
    simp [ActionObject.is_local, ActionObject.is_remote, h]

/-- C5 amended: add_local_action_object succeeds exactly on a local Patch
action object whose parent action id equals the id of the last local
action (hence is absent exactly when local_actions is empty, with no
requirement that the object itself be local), whose application to the
local snapshot succeeds and whose stored object_signature equals the
fingerprint of the patched object; on success the action is appended to
local_actions and the local snapshot is replaced; in every other case an
error is returned. -/
theorem add_local_action_object_amended
    (app : A → T → Nat → String → Except String T) (sigT : T → String)
    (s s2 : StorageObject T A) (aob : ActionObject T A) :
    s.add_local_action_object app sigT aob = Except.ok s2 ↔
      (aob.is_local = true ∧
       aob.parent_action_id =
         (s.local_actions.getLast?).map (fun i => i.id) ∧
       ∃ act patched, aob.action = ActionKind.Patch act ∧
         app act s.local_object aob.dtime aob.uid = Except.ok patched ∧
         aob.object_signature = sigT patched ∧
         s2 = { s with local_object := patched,
                       local_actions := s.local_actions ++ [aob] }) := by
  unfold StorageObject.add_local_action_object
  cases hrem : aob.is_remote with
  | true => simp [hrem, is_local_eq_not_is_remote]
  | false =>
    cases hact : aob.action with
    | Create d => simp [hrem, hact]
    | Patch act0 =>
      by_cases hp : aob.parent_action_id =
          (s.local_actions.getLast?).map (fun i => i.id)
      · cases happ : app act0 s.local_object aob.dtime aob.uid with
        | error e =>
          simp [hrem, hact, hp, happ, is_local_eq_not_is_remote]
        | ok patched0 =>
          by_cases hs : aob.object_signature = sigT patched0
          · simp [hrem, hact, hp, happ, hs, is_local_eq_not_is_remote,
              eq_comm]
          · simp [hrem, hact, hp, happ, hs, is_local_eq_not_is_remote]
      · simp [hrem, hact, hp, is_local_eq_not_is_remote]

/-- Second local patch chained on the local Create of a purely-local
object. -/
def aobSecondLocalPatch : ActionObject Nat Nat :=
  { id := 9, storage_id := "st", object_id := 2, uid := "u", dtime := 4,
    commit_id := some 3, parent_action_id := some 11,
    action := ActionKind.Patch 5, object_signature := "12",
    remote_signature := none }

/-- Witness for add_local_action_object_amended: the characterization
evaluated on a concrete accepted patch. -/
theorem add_local_action_object_amended_witness :
    StorageObject.add_local_action_object appDemo sigTDemo soLocalOnly
        aobSecondLocalPatch =
      Except.ok
        { soLocalOnly with
          local_object := 12,
          local_actions := soLocalOnly.local_actions ++
            [aobSecondLocalPatch] } :=
  (add_local_action_object_amended appDemo sigTDemo soLocalOnly _
      aobSecondLocalPatch).mpr
    ⟨rfl, rfl, 5, 12, rfl, rfl, rfl, rfl⟩

/-- First local patch on a pulled remote object: the object holds a
remote snapshot, has no local actions yet, and the incoming local patch
carries no parent action id. -/
def aobFirstLocalPatch : ActionObject Nat Nat :=
  { id := 8, storage_id := "st", object_id := 1, uid := "u", dtime := 2,
    commit_id := some 1, parent_action_id := none,
    action := ActionKind.Patch 5, object_signature := "15",
    remote_signature := none }

/-- C5 counterexample: the claim allows an absent parent action id only
when local_actions is empty and the object is local. The code accepts an
absent parent whenever local_actions is empty: here a patch with no
parent is accepted on an object that is not local (it holds a remote
snapshot). -/
theorem add_local_patch_accepted_on_remote_object :
    StorageObject.add_local_action_object appDemo sigTDemo soRemote
        aobFirstLocalPatch =
      Except.ok
        { soRemote with
          local_object := 15,
          local_actions := [aobFirstLocalPatch] } ∧
    soRemote.is_local_object = false ∧
    soRemote.local_actions = [] ∧
    aobFirstLocalPatch.parent_action_id = none :=
  ⟨rfl, rfl, rfl, rfl⟩

/-- Structural invariant of the rebuild loop: on success the final object
is the fold of the Patch actions of the input chain, the rebuilt chain
has the same length, every Patch entry is restamped with the fingerprint
of the intermediate object its application produces and with the new
time, and every other entry is returned untouched. -/
theorem rebuild_actions_ok
    (app : A → T → Nat → String → Except String T) (sigT : T → String)
    (now : Nat) :
    ∀ (l : List (ActionObject T A)) (t tfin : T)
      (l2 : List (ActionObject T A)),
      rebuild_actions app sigT now t l = Except.ok (tfin, l2) →
      fold_patches app t l = Except.ok tfin ∧
      l2.length = l.length ∧
      (∀ i a a2, l[i]? = some a → l2[i]? = some a2 →
        (a.is_kind_patch = false → a2 = a) ∧
        (a.is_kind_patch = true →
          ∃ ti, fold_patches app t (l.take (i + 1)) = Except.ok ti ∧
            a2 = { a with object_signature := sigT ti, dtime := now })) := by
  intro l
  induction l with
  | nil =>
    intro t tfin l2 h
    simp [rebuild_actions] at h
    obtain ⟨h1, h2⟩ := h
    subst h1
    subst h2
    refine ⟨by simp [fold_patches], by simp, ?_⟩
    intro i a a2 ha _
    simp at ha
  | cons aob rest ih =>
    intro t tfin l2 h
    cases hact : aob.action with
    | Patch act =>
      simp only [rebuild_actions, hact] at h
      cases happ : app act t aob.dtime aob.uid with
      | error e => simp [happ] at h
      | ok patched =>
        simp only [happ] at h
        cases hrec : rebuild_actions app sigT now patched rest with
        | error e => simp [hrec] at h
        | ok pr =>
          obtain ⟨tf, rest2⟩ := pr
          simp only [hrec] at h
          obtain ⟨h1, h2⟩ := Except.ok.inj h |> Prod.mk.inj
          obtain ⟨ihf, ihl, ihidx⟩ := ih patched tf rest2 hrec
          subst h1
          refine ⟨?_, ?_, ?_⟩
          · simp [fold_patches, hact, happ, ihf]
          · rw [← h2]
            simp [ihl]
          · intro i a a2 hga hga2
            rw [← h2] at hga2
            match i with
            | 0 =>
              simp only [List.getElem?_cons_zero, Option.some.injEq] at hga hga2
              subst hga
              subst hga2
              constructor
              · intro hfalse
                simp [ActionObject.is_kind_patch, hact] at hfalse
              · intro _
                refine ⟨patched, ?_, ?_⟩
                · simp [List.take, fold_patches, hact, happ]
                · simp [ActionObject.reset_dtime, hact]
            | Nat.succ j =>
              simp only [List.getElem?_cons_succ] at hga hga2
              obtain ⟨hc1, hc2⟩ := ihidx j a a2 hga hga2
              refine ⟨hc1, ?_⟩
              intro hpa
              obtain ⟨ti, hti1, hti2⟩ := hc2 hpa
              refine ⟨ti, ?_, hti2⟩
              simp [List.take_succ_cons, fold_patches, hact, happ, hti1]
    | Create d =>
      simp only [rebuild_actions, hact] at h
      cases hrec : rebuild_actions app sigT now t rest with
      | error e => simp [hrec] at h
      | ok pr =>
        obtain ⟨tf, rest2⟩ := pr
        simp only [hrec] at h
        obtain ⟨h1, h2⟩ := Except.ok.inj h |> Prod.mk.inj
        obtain ⟨ihf, ihl, ihidx⟩ := ih t tf rest2 hrec
        subst h1
        refine ⟨?_, ?_, ?_⟩
        · simp [fold_patches, hact, ihf]
        · rw [← h2]
          simp [ihl]
        · intro i a a2 hga hga2
          rw [← h2] at hga2
          match i with
          | 0 =>
            simp only [List.getElem?_cons_zero, Option.some.injEq] at hga hga2
            subst hga
            subst hga2
            constructor
            · intro _
              rfl
            · intro htrue
              simp [ActionObject.is_kind_patch, hact] at htrue
          | Nat.succ j =>
            simp only [List.getElem?_cons_succ] at hga hga2
            obtain ⟨hc1, hc2⟩ := ihidx j a a2 hga hga2
            refine ⟨hc1, ?_⟩
            intro hpa
            obtain ⟨ti, hti1, hti2⟩ := hc2 hpa
            refine ⟨ti, ?_, hti2⟩
            simp [List.take_succ_cons, fold_patches, hact, hti1]

/-- C4 amended: after rebuild_local_objects succeeds on an object whose
remote snapshot is present, local_object is the fold of the Patch
actions of local_actions applied in order from the remote snapshot,
every Patch entry carries the fingerprint of the intermediate object its
application produces and has its dtime reset to the current time, and
every non-Patch entry is left untouched. -/
theorem rebuild_local_objects_amended
    (app : A → T → Nat → String → Except String T) (sigT : T → String)
    (now : Nat) (s s2 : StorageObject T A) (r : T)
    (hr : s.remote_object = some r)
    (h : s.rebuild_local_objects app sigT now = Except.ok s2) :
    fold_patches app r s.local_actions = Except.ok s2.local_object ∧
    s2.local_actions.length = s.local_actions.length ∧
    (∀ i a a2, s.local_actions[i]? = some a →
        s2.local_actions[i]? = some a2 →
        (a.is_kind_patch = false → a2 = a) ∧
        (a.is_kind_patch = true →
          ∃ ti, fold_patches app r (s.local_actions.take (i + 1)) =
              Except.ok ti ∧
            a2 = { a with object_signature := sigT ti, dtime := now })) := by
  simp only [StorageObject.rebuild_local_objects, hr] at h
  cases hrec : rebuild_actions app sigT now r s.local_actions with
  | error e => simp [hrec] at h
  | ok pr =>
    obtain ⟨tfin, acts⟩ := pr
    simp only [hrec] at h
    have hs2 := (Except.ok.inj h).symm
    subst hs2
    exact rebuild_actions_ok app sigT now s.local_actions r tfin acts hrec

/-- Local Create entry sitting in the local chain of an object that also
holds a remote snapshot (such a state is reachable only by direct
construction, yet rebuild accepts it). -/
def aobCreateEntry : ActionObject Nat Nat :=
  { id := 5, storage_id := "st", object_id := 2, uid := "u", dtime := 5,
    commit_id := none, parent_action_id := none,
    action := ActionKind.Create 7, object_signature := "7",
    remote_signature := none }

/-- Storage object with a remote snapshot whose local chain holds a
Create entry. -/
def soWithCreateEntry : StorageObject Nat Nat :=
  { id := 2, storage_id := "st", remote_actions := [],
    local_actions := [aobCreateEntry], remote_object := some 10,
    local_object := 0 }

/-- C4 counterexample: the claim states that after a successful rebuild
every local action has its dtime reset to the current time. Rebuilding
this object with now = 99 succeeds, yet its Create entry keeps dtime 5:
the loop only restamps Patch entries. -/
theorem rebuild_keeps_create_entry_dtime :
    soWithCreateEntry.rebuild_local_objects appDemo sigTDemo 99 =
      Except.ok { soWithCreateEntry with local_object := 10 } ∧
    ({ soWithCreateEntry with
        local_object := 10 }).local_actions.all (fun a => a.dtime == 99) =
      false :=
  ⟨rfl, rfl⟩

/-- Pending local patch with dtime 3 over a remote snapshot of 10. -/
def aobPatchEntry : ActionObject Nat Nat :=
  { id := 6, storage_id := "st", object_id := 1, uid := "u", dtime := 3,
    commit_id := some 1, parent_action_id := none,
    action := ActionKind.Patch 5, object_signature := "0",
    remote_signature := none }

/-- Storage object with one pending local patch. -/
def soPatchPending : StorageObject Nat Nat :=
  { id := 1, storage_id := "st", remote_actions := [],
    local_actions := [aobPatchEntry], remote_object := some 10,
    local_object := 0 }

/-- Rebuilt form of soPatchPending at now = 99: snapshot 15, signature
restamped to the fingerprint of 15, dtime reset. -/
def soPatchRebuilt : StorageObject Nat Nat :=
  { soPatchPending with
    local_object := 15,
    local_actions :=
      [{ aobPatchEntry with object_signature := "15", dtime := 99 }] }

/-- Witness for rebuild_local_objects_amended at a concrete rebuild. -/
theorem rebuild_local_objects_amended_witness :
    soPatchPending.remote_object = some 10 ∧
    soPatchPending.rebuild_local_objects appDemo sigTDemo 99 =
      Except.ok soPatchRebuilt ∧
    (fold_patches appDemo 10 soPatchPending.local_actions =
        Except.ok soPatchRebuilt.local_object ∧
      soPatchRebuilt.local_actions.length =
        soPatchPending.local_actions.length ∧
      (∀ i a a2, soPatchPending.local_actions[i]? = some a →
          soPatchRebuilt.local_actions[i]? = some a2 →
          (a.is_kind_patch = false → a2 = a) ∧
          (a.is_kind_patch = true →
            ∃ ti, fold_patches appDemo 10
                (soPatchPending.local_actions.take (i + 1)) =
                Except.ok ti ∧
              a2 = { a with object_signature := sigTDemo ti,
                            dtime := 99 }))) :=
  ⟨rfl, rfl,
   rebuild_local_objects_amended appDemo sigTDemo 99 soPatchPending
     soPatchRebuilt 10 rfl rfl⟩

end Demobit
